import Mathlib

/-!
Verification of the cadmus noise-suppression utility
(src/src/main/python/main.py) against its specification.

The program orchestrates a PulseAudio module graph: it enumerates input
devices, drops a bundled LADSPA plugin binary into a cache directory, and
enables/disables a four-module suppression pipeline.  We embed the relevant
functions shallowly: every interaction with the audio server, the CLI control
socket or stdout is recorded as an explicit effect in a trace, the backend
object's mutable fields become an explicit state record, and the filesystem
becomes an explicit map from paths to contents.
-/

namespace Cadmus

/-- An audio input device as reported by the running audio server
(a pulsectl source object, projected to the two fields the program uses). -/
structure AudioSource where
  name : String
  description : String
deriving DecidableEq, Repr

/-- One observable interaction of the program with its environment: a
structured module-create call (pulse.module_load), one line written to the
textual control channel (pulsectl.connect_to_cli, then s.write), or a line
printed to stdout. -/
inductive PulseEffect where
  | moduleLoad (moduleName : String) (args : String)
  | cliWrite (line : String)
  | printLine (line : String)
deriving DecidableEq, Repr

/-- Whether an effect is a structured module-create call. -/
def PulseEffect.isModuleLoad : PulseEffect → Bool
  | .moduleLoad _ _ => true
  | _ => false

/-- The four (module name, argument string) pairs that
CadmusPulseInterface.load_modules passes to pulse.module_load, in order.
The argument strings are the Python literals with the %s / %d
substitutions spelled out; \x27 is the ASCII apostrophe appearing in the
device.description properties. -/
def cadmus_load_calls (mic_name : String) (control_level : Int)
    (cadmus_lib_path : String) : List (String × String) :=
  let control_level := max control_level 50
  [ ("module-null-sink",
     "sink_name=mic_denoised_out sink_properties=\"device.description=\x27Cadmus Microphone Sink\x27\""),
    ("module-ladspa-sink",
     "sink_name=mic_raw_in sink_master=mic_denoised_out label=noise_suppressor_mono plugin="
       ++ cadmus_lib_path ++ " control=" ++ toString control_level
       ++ " sink_properties=\"device.description=\x27Cadmus Raw Microphone Redirect\x27\""),
    ("module-loopback",
     "latency_msec=1 source=" ++ mic_name ++ " sink=mic_raw_in channels=1"),
    ("module-remap-source",
     "master=mic_denoised_out.monitor source_name=denoised source_properties=\"device.description=\x27Cadmus Denoised Microphone (Use me!)\x27\"") ]

/-- CadmusPulseInterface.load_modules (main.py lines 60-89): clamps the
control level to a floor of 50, issues the four module-create calls in
order, then prints the level it set. -/
def load_modules (mic_name : String) (control_level : Int)
    (cadmus_lib_path : String) : List PulseEffect :=
  let level := max control_level 50
  (cadmus_load_calls mic_name control_level cadmus_lib_path).map
    (fun p => PulseEffect.moduleLoad p.1 p.2)
  ++ [PulseEffect.printLine ("Set suppression level to " ++ toString level)]

/-- CadmusPulseInterface.cli_command: writes each command, newline
terminated, over a fresh connection to the pulse CLI socket. -/
def cli_command (command : List String) : List PulseEffect :=
  command.map (fun c => PulseEffect.cliWrite (c ++ "\n"))

/-- CadmusPulseInterface.unload_modules (main.py lines 91-100): a static
method with no inputs; unloads the four module types by name over the
textual control channel. -/
def unload_modules : List PulseEffect :=
  cli_command
    [ "unload-module module-loopback",
      "unload-module module-null-sink",
      "unload-module module-ladspa-sink",
      "unload-module module-remap-source" ]

/-- The mutable fields of a CadmusBackendApp instance. -/
structure BackendState where
  audio_sources : List AudioSource
  cadmus_lib_path : String
deriving DecidableEq, Repr

/-- CadmusBackendApp.sources_list (main.py lines 25-30).  `server` is the
device list pulse.source_list() would return at this moment.  If the cached
list is non-empty it is returned (as a copy); otherwise the server is
queried, every returned source is appended to the cache, and a copy of the
cache is returned. -/
def sources_list (server : List AudioSource) (st : BackendState) :
    List AudioSource × BackendState :=
  if st.audio_sources.length > 0 then
    (st.audio_sources, st)
  else
    let updated := st.audio_sources ++ server
    (updated, { st with audio_sources := updated })

/-- CadmusBackendApp.enable_noise_suppression (main.py lines 46-49).
Returns the trace of effects issued, the raised error message (if any), and
the backend state afterwards.  The unknown-name exception is raised before
load_modules runs, so on that path the trace is empty. -/
def enable_noise_suppression (server : List AudioSource) (st : BackendState)
    (mic_name : String) (control_level : Int) :
    List PulseEffect × Option String × BackendState :=
  let q := sources_list server st
  if mic_name ∈ q.1.map AudioSource.name then
    (load_modules mic_name control_level q.2.cadmus_lib_path, none, q.2)
  else
    ([], some ("Unknown mic name " ++ mic_name), q.2)

/-- CadmusBackendApp.disable_noise_suppression: delegates to the static
unload_modules, consulting no instance state. -/
def disable_noise_suppression (st : BackendState) :
    List PulseEffect × BackendState :=
  (unload_modules, st)


/-- C1: enable with a device name present in the enumerator's snapshot
issues exactly the four module-create calls, in the fixed order null sink,
LADSPA filter sink (sink_master=mic_denoised_out, control clamped),
loopback (source = caller device, sink=mic_raw_in, latency_msec=1,
channels=1), remap source (source_name=denoised,
master=mic_denoised_out.monitor), with no error raised. -/
theorem C1_enable_four_creates (server : List AudioSource) (st : BackendState)
    (mic_name : String) (control_level : Int)
    (hmic : mic_name ∈ (sources_list server st).1.map AudioSource.name) :
    enable_noise_suppression server st mic_name control_level =
      (load_modules mic_name control_level (sources_list server st).2.cadmus_lib_path,
       none, (sources_list server st).2) ∧
    (load_modules mic_name control_level (sources_list server st).2.cadmus_lib_path).filter
        PulseEffect.isModuleLoad =
      [ PulseEffect.moduleLoad "module-null-sink"
          "sink_name=mic_denoised_out sink_properties=\"device.description=\x27Cadmus Microphone Sink\x27\"",
        PulseEffect.moduleLoad "module-ladspa-sink"
          ("sink_name=mic_raw_in sink_master=mic_denoised_out label=noise_suppressor_mono plugin="
            ++ (sources_list server st).2.cadmus_lib_path ++ " control="
            ++ toString (max control_level 50)
            ++ " sink_properties=\"device.description=\x27Cadmus Raw Microphone Redirect\x27\""),
        PulseEffect.moduleLoad "module-loopback"
          ("latency_msec=1 source=" ++ mic_name ++ " sink=mic_raw_in channels=1"),
        PulseEffect.moduleLoad "module-remap-source"
          "master=mic_denoised_out.monitor source_name=denoised source_properties=\"device.description=\x27Cadmus Denoised Microphone (Use me!)\x27\"" ] := by
  constructor
  · unfold enable_noise_suppression
    rw [if_pos hmic]
  · rfl

/-- C1 witness: a concrete run of the theorem with device mic0 present and
control level 30. -/
theorem C1_enable_four_creates_witness :
    "mic0" ∈ (sources_list [⟨"mic0", "Built-in Mic"⟩] ⟨[], "/cache/librnnoise_ladspa.so"⟩).1.map AudioSource.name ∧
    (enable_noise_suppression [⟨"mic0", "Built-in Mic"⟩] ⟨[], "/cache/librnnoise_ladspa.so"⟩ "mic0" 30 =
      (load_modules "mic0" 30
        (sources_list [⟨"mic0", "Built-in Mic"⟩] ⟨[], "/cache/librnnoise_ladspa.so"⟩).2.cadmus_lib_path,
       none, (sources_list [⟨"mic0", "Built-in Mic"⟩] ⟨[], "/cache/librnnoise_ladspa.so"⟩).2) ∧
    (load_modules "mic0" 30
        (sources_list [⟨"mic0", "Built-in Mic"⟩] ⟨[], "/cache/librnnoise_ladspa.so"⟩).2.cadmus_lib_path).filter
        PulseEffect.isModuleLoad =
      [ PulseEffect.moduleLoad "module-null-sink"
          "sink_name=mic_denoised_out sink_properties=\"device.description=\x27Cadmus Microphone Sink\x27\"",
        PulseEffect.moduleLoad "module-ladspa-sink"
          ("sink_name=mic_raw_in sink_master=mic_denoised_out label=noise_suppressor_mono plugin="
            ++ (sources_list [⟨"mic0", "Built-in Mic"⟩] ⟨[], "/cache/librnnoise_ladspa.so"⟩).2.cadmus_lib_path
            ++ " control=" ++ toString (max (30:Int) 50)
            ++ " sink_properties=\"device.description=\x27Cadmus Raw Microphone Redirect\x27\""),
        PulseEffect.moduleLoad "module-loopback"
          ("latency_msec=1 source=" ++ "mic0" ++ " sink=mic_raw_in channels=1"),
        PulseEffect.moduleLoad "module-remap-source"
          "master=mic_denoised_out.monitor source_name=denoised source_properties=\"device.description=\x27Cadmus Denoised Microphone (Use me!)\x27\"" ]) :=
  ⟨by decide, C1_enable_four_creates _ _ _ _ (by decide)⟩


/-- A mock of the audio server's module graph: the list of loaded modules
(module name, argument string), in load order. -/
structure ServerState where
  loaded : List (String × String)
deriving DecidableEq, Repr

/-- Runs a trace of effects against a mock server.  `fails` says which
module-create calls the server rejects; a rejected call raises, so the rest
of the trace is not executed and the failing call is reported.  Writes to
the control channel and stdout do not change the module graph. -/
def runEffects (fails : String → String → Bool) :
    List PulseEffect → ServerState → ServerState × Option PulseEffect
  | [], s => (s, none)
  | PulseEffect.moduleLoad m a :: rest, s =>
      if fails m a then (s, some (PulseEffect.moduleLoad m a))
      else runEffects fails rest ⟨s.loaded ++ [(m, a)]⟩
  | PulseEffect.cliWrite _ :: rest, s => runEffects fails rest s
  | PulseEffect.printLine _ :: rest, s => runEffects fails rest s

/-- C2: enable with a device name absent from the enumerator's snapshot
raises the unknown-mic error, issues an empty effect trace, and leaves any
mock server's module graph unchanged when that (empty) trace is run. -/
theorem C2_enable_unknown_device (server : List AudioSource) (st : BackendState)
    (mic_name : String) (control_level : Int)
    (hmic : mic_name ∉ (sources_list server st).1.map AudioSource.name) :
    enable_noise_suppression server st mic_name control_level =
      ([], some ("Unknown mic name " ++ mic_name), (sources_list server st).2) ∧
    ∀ (fails : String → String → Bool) (s : ServerState),
      runEffects fails (enable_noise_suppression server st mic_name control_level).1 s =
        (s, none) := by
  have h1 : enable_noise_suppression server st mic_name control_level =
      ([], some ("Unknown mic name " ++ mic_name), (sources_list server st).2) := by
    unfold enable_noise_suppression
    rw [if_neg hmic]
  refine ⟨h1, fun fails s => ?_⟩
  rw [h1]
  rfl

/-- C2 witness: a concrete run with device ghost absent from the snapshot. -/
theorem C2_enable_unknown_device_witness :
    "ghost" ∉ (sources_list [⟨"mic0", "Built-in Mic"⟩] ⟨[], "/p"⟩).1.map AudioSource.name ∧
    (enable_noise_suppression [⟨"mic0", "Built-in Mic"⟩] ⟨[], "/p"⟩ "ghost" 80 =
      ([], some ("Unknown mic name " ++ "ghost"),
       (sources_list [⟨"mic0", "Built-in Mic"⟩] ⟨[], "/p"⟩).2) ∧
    ∀ (fails : String → String → Bool) (s : ServerState),
      runEffects fails (enable_noise_suppression [⟨"mic0", "Built-in Mic"⟩] ⟨[], "/p"⟩ "ghost" 80).1 s =
        (s, none)) :=
  ⟨by decide, C2_enable_unknown_device _ _ _ _ (by decide)⟩

/-- C3: the control level embedded in the LADSPA filter sink's module-create
arguments is exactly max(control_level, 50): the identity above 50 and a
hard floor of 50 below it, with no error path for low values. -/
theorem C3_control_level_floor (mic_name : String) (control_level : Int)
    (cadmus_lib_path : String) :
    ((load_modules mic_name control_level cadmus_lib_path).filter
        PulseEffect.isModuleLoad)[1]? =
      some (PulseEffect.moduleLoad "module-ladspa-sink"
        ("sink_name=mic_raw_in sink_master=mic_denoised_out label=noise_suppressor_mono plugin="
          ++ cadmus_lib_path ++ " control=" ++ toString (max control_level 50)
          ++ " sink_properties=\"device.description=\x27Cadmus Raw Microphone Redirect\x27\"")) ∧
    max control_level 50 = if control_level < 50 then 50 else control_level := by
  refine ⟨rfl, ?_⟩
  rw [max_def]
  split <;> split <;> omega

/-- C4: disable issues exactly four unload-by-name lines over the textual
control channel, in the order loopback, null sink, LADSPA sink, remap
source, for every backend state (it consults no prior state and leaves the
state unchanged). -/
theorem C4_disable_four_unloads (st : BackendState) :
    disable_noise_suppression st =
      ([ PulseEffect.cliWrite "unload-module module-loopback\n",
         PulseEffect.cliWrite "unload-module module-null-sink\n",
         PulseEffect.cliWrite "unload-module module-ladspa-sink\n",
         PulseEffect.cliWrite "unload-module module-remap-source\n" ], st) := rfl


/-- C5 counterexample: in a run whose first enumeration sees an empty server
list, the second call does not return the first call's snapshot — the
cache-length guard means an empty result is never treated as cached, so the
second call re-queries and can see a newly added device. -/
theorem C5_cache_counterexample :
    (sources_list [⟨"mic0", "Built-in Mic"⟩] (sources_list [] ⟨[], "/p"⟩).2).1 ≠
      (sources_list [] ⟨[], "/p"⟩).1 := by decide

/-- C5 (amended): in a fresh backend state, when the first enumeration
returns a non-empty device list, that list is cached and every subsequent
call returns the cached snapshot and state unchanged, whatever the server
list has become. -/
theorem C5_cache_after_nonempty (server1 server2 : List AudioSource)
    (st : BackendState) (h0 : st.audio_sources = []) (h1 : server1 ≠ []) :
    (sources_list server1 st).1 = server1 ∧
    sources_list server2 (sources_list server1 st).2 =
      ((sources_list server1 st).1, (sources_list server1 st).2) := by
  have hfirst : sources_list server1 st =
      (server1, { st with audio_sources := server1 }) := by
    unfold sources_list
    rw [if_neg (by simp [h0])]
    simp [h0]
  refine ⟨by rw [hfirst], ?_⟩
  rw [hfirst]
  unfold sources_list
  rw [if_pos (by simpa using List.length_pos.mpr h1)]

/-- C5 witness: a concrete fresh state whose first query returns one device;
the second query sees a different server list but returns the snapshot. -/
theorem C5_cache_after_nonempty_witness :
    (⟨[], "/p"⟩ : BackendState).audio_sources = [] ∧
    ([⟨"mic0", "Built-in Mic"⟩] : List AudioSource) ≠ [] ∧
    ((sources_list [⟨"mic0", "Built-in Mic"⟩] ⟨[], "/p"⟩).1 = [⟨"mic0", "Built-in Mic"⟩] ∧
     sources_list [⟨"hotplugged", "New Mic"⟩]
         (sources_list [⟨"mic0", "Built-in Mic"⟩] ⟨[], "/p"⟩).2 =
       ((sources_list [⟨"mic0", "Built-in Mic"⟩] ⟨[], "/p"⟩).1,
        (sources_list [⟨"mic0", "Built-in Mic"⟩] ⟨[], "/p"⟩).2)) :=
  ⟨rfl, by decide,
   C5_cache_after_nonempty [⟨"mic0", "Built-in Mic"⟩] [⟨"hotplugged", "New Mic"⟩]
     ⟨[], "/p"⟩ rfl (by decide)⟩

/-- C9: an empty first enumeration caches nothing: the call returns the
empty list with the state unchanged, and a later call re-queries the server
and returns whatever devices it reports then. -/
theorem C9_empty_result_not_cached (st : BackendState)
    (h : st.audio_sources = []) :
    sources_list [] st = ([], st) ∧
    ∀ server2 : List AudioSource,
      (sources_list server2 (sources_list [] st).2).1 = server2 := by
  obtain ⟨cache, lib⟩ := st
  simp only at h
  subst h
  constructor
  · rfl
  · intro server2
    unfold sources_list
    simp

/-- C9 witness: a fresh state; the empty first query, then a later query
observing a hot-plugged device. -/
theorem C9_empty_result_not_cached_witness :
    (⟨[], "/p"⟩ : BackendState).audio_sources = [] ∧
    (sources_list [] ⟨[], "/p"⟩ = ([], ⟨[], "/p"⟩) ∧
     ∀ server2 : List AudioSource,
       (sources_list server2 (sources_list [] (⟨[], "/p"⟩ : BackendState)).2).1 = server2) :=
  ⟨rfl, C9_empty_result_not_cached ⟨[], "/p"⟩ rfl⟩


/-- Helper: running a trace of module-create calls where every call in `pre`
is accepted and the next call `p` is rejected stops at `p`, leaves exactly
the modules of `pre` appended to the graph, and reports the failing call.
The rest of the trace (including any trailing non-create effects) never
runs. -/
theorem runEffects_fail_at (fails : String → String → Bool)
    (pre : List (String × String)) (p : String × String)
    (post : List (String × String)) (tail : List PulseEffect)
    (hpre : ∀ q ∈ pre, fails q.1 q.2 = false) (hp : fails p.1 p.2 = true)
    (s : ServerState) :
    runEffects fails
        ((pre ++ p :: post).map (fun q => PulseEffect.moduleLoad q.1 q.2) ++ tail) s =
      (⟨s.loaded ++ pre⟩, some (PulseEffect.moduleLoad p.1 p.2)) := by
  induction pre generalizing s with
  | nil =>
    obtain ⟨s⟩ := s
    simp [runEffects, hp]
  | cons q pre ih =>
    have hq : fails q.1 q.2 = false := hpre q (by simp)
    have ih' := ih (fun r hr => hpre r (by simp [hr])) ⟨s.loaded ++ [q]⟩
    simpa [runEffects, hq, List.append_assoc] using ih'

/-- C7: if the server accepts every module-create call before some call of
the enable sequence and rejects that call, then running enable's trace
leaves exactly the earlier stages' modules loaded (no rollback is ever
issued), the failing call's error propagates, and no later stage runs. -/
theorem C7_no_rollback_on_failure (mic_name : String) (control_level : Int)
    (cadmus_lib_path : String) (s : ServerState)
    (fails : String → String → Bool)
    (pre : List (String × String)) (p : String × String)
    (post : List (String × String))
    (hsplit : cadmus_load_calls mic_name control_level cadmus_lib_path =
      pre ++ p :: post)
    (hpre : ∀ q ∈ pre, fails q.1 q.2 = false)
    (hfail : fails p.1 p.2 = true) :
    runEffects fails (load_modules mic_name control_level cadmus_lib_path) s =
      (⟨s.loaded ++ pre⟩, some (PulseEffect.moduleLoad p.1 p.2)) := by
  have : load_modules mic_name control_level cadmus_lib_path =
      (pre ++ p :: post).map (fun q => PulseEffect.moduleLoad q.1 q.2)
      ++ [PulseEffect.printLine
            ("Set suppression level to " ++ toString (max control_level 50))] := by
    rw [load_modules, ← hsplit]
  rw [this]
  exact runEffects_fail_at fails pre p post _ hpre hfail s

set_option maxRecDepth 10000 in
/-- C7 witness: a server that rejects the loopback stage (stage 3) of a
concrete enable run leaves the null sink and the LADSPA sink loaded and
propagates the loopback call as the error. -/
theorem C7_no_rollback_on_failure_witness :
    cadmus_load_calls "mic0" 30 "/p" =
      [ ("module-null-sink",
         "sink_name=mic_denoised_out sink_properties=\"device.description=\x27Cadmus Microphone Sink\x27\""),
        ("module-ladspa-sink",
         "sink_name=mic_raw_in sink_master=mic_denoised_out label=noise_suppressor_mono plugin=/p control=50 sink_properties=\"device.description=\x27Cadmus Raw Microphone Redirect\x27\"") ]
      ++ ("module-loopback", "latency_msec=1 source=mic0 sink=mic_raw_in channels=1")
      :: [ ("module-remap-source",
            "master=mic_denoised_out.monitor source_name=denoised source_properties=\"device.description=\x27Cadmus Denoised Microphone (Use me!)\x27\"") ] ∧
    (fun m _ => m == "module-loopback") "module-loopback"
        "latency_msec=1 source=mic0 sink=mic_raw_in channels=1" = true ∧
    runEffects (fun m _ => m == "module-loopback")
        (load_modules "mic0" 30 "/p") ⟨[]⟩ =
      (⟨([] : List (String × String)) ++
          [ ("module-null-sink",
             "sink_name=mic_denoised_out sink_properties=\"device.description=\x27Cadmus Microphone Sink\x27\""),
            ("module-ladspa-sink",
             "sink_name=mic_raw_in sink_master=mic_denoised_out label=noise_suppressor_mono plugin=/p control=50 sink_properties=\"device.description=\x27Cadmus Raw Microphone Redirect\x27\"") ]⟩,
       some (PulseEffect.moduleLoad "module-loopback"
         "latency_msec=1 source=mic0 sink=mic_raw_in channels=1")) :=
  ⟨by decide, by decide,
   C7_no_rollback_on_failure "mic0" 30 "/p" ⟨[]⟩ (fun m _ => m == "module-loopback")
     [ ("module-null-sink",
        "sink_name=mic_denoised_out sink_properties=\"device.description=\x27Cadmus Microphone Sink\x27\""),
       ("module-ladspa-sink",
        "sink_name=mic_raw_in sink_master=mic_denoised_out label=noise_suppressor_mono plugin=/p control=50 sink_properties=\"device.description=\x27Cadmus Raw Microphone Redirect\x27\"") ]
     ("module-loopback", "latency_msec=1 source=mic0 sink=mic_raw_in channels=1")
     [ ("module-remap-source",
        "master=mic_denoised_out.monitor source_name=denoised source_properties=\"device.description=\x27Cadmus Denoised Microphone (Use me!)\x27\"") ]
     (by decide) (by decide) (by decide)⟩


/-- A small filesystem model: the set of directories that exist and an
association list from file paths to contents (earlier entries shadow later
ones, so writing prepends). -/
structure FileSystem where
  dirs : List String
  files : List (String × String)
deriving DecidableEq, Repr

/-- Content of the file at `p`, if it exists. -/
def FileSystem.read (fs : FileSystem) (p : String) : Option String :=
  fs.files.lookup p

/-- Write (create or overwrite) the file at `p`. -/
def FileSystem.write (fs : FileSystem) (p c : String) : FileSystem :=
  ⟨fs.dirs, (p, c) :: fs.files⟩

/-- os.path.exists: true for an existing directory or file. -/
def FileSystem.pathExists (fs : FileSystem) (p : String) : Bool :=
  fs.dirs.contains p || (fs.files.lookup p).isSome

/-- os.makedirs: create the directory. -/
def FileSystem.makedirs (fs : FileSystem) (p : String) : FileSystem :=
  ⟨p :: fs.dirs, fs.files⟩

/-- shutil.copyfile: read the source file and write its content to the
destination, overwriting it; none models the raised error when the source
is missing. -/
def FileSystem.copyfile (fs : FileSystem) (src dst : String) :
    Option FileSystem :=
  match fs.read src with
  | some c => some (fs.write dst c)
  | none => none

/-- os.path.join of two components, as drop_cadmus_binary uses it. -/
def path_join (a b : String) : String := a ++ "/" ++ b

/-- The cache directory os.path.join(HOME, ".cache", "cadmus"). -/
def cadmus_cache_path (home : String) : String :=
  path_join (path_join home ".cache") "cadmus"

/-- The destination path of the bundled plugin binary inside the cache
directory. -/
def cadmus_lib_dest (home : String) : String :=
  path_join (cadmus_cache_path home) "librnnoise_ladspa.so"

/-- CadmusBackendApp.drop_cadmus_binary (main.py lines 32-41): create the
cache directory if absent, record the destination path on the instance, and
unconditionally copy the bundled binary (at `resource_path`) over the
destination.  The none result models a raised filesystem error (missing
bundled resource). -/
def drop_cadmus_binary (home resource_path : String) (fs : FileSystem)
    (st : BackendState) : Option (FileSystem × BackendState) :=
  let fs1 := if fs.pathExists (cadmus_cache_path home) then fs
             else fs.makedirs (cadmus_cache_path home)
  match fs1.copyfile resource_path (cadmus_lib_dest home) with
  | some fs2 => some (fs2, { st with cadmus_lib_path := cadmus_lib_dest home })
  | none => none

/-- Reading a file is unaffected by creating a directory. -/
theorem FileSystem.read_makedirs (fs : FileSystem) (p q : String) :
    (fs.makedirs p).read q = fs.read q := rfl

/-- Reading the path just written returns the written content. -/
theorem FileSystem.read_write_self (fs : FileSystem) (p c : String) :
    (fs.write p c).read p = some c := by
  simp [FileSystem.read, FileSystem.write, List.lookup]

/-- Writing a file never removes an existing path. -/
theorem FileSystem.pathExists_write (fs : FileSystem) (p c q : String)
    (h : fs.pathExists q = true) : (fs.write p c).pathExists q = true := by
  simp only [FileSystem.pathExists, FileSystem.write, List.lookup] at h ⊢
  cases hq : q == p
  · simpa [hq] using h
  · simp [hq]

/-- A freshly created directory exists. -/
theorem FileSystem.pathExists_makedirs_self (fs : FileSystem) (p : String) :
    (fs.makedirs p).pathExists p = true := by
  simp [FileSystem.pathExists, FileSystem.makedirs]

/-- C6: when the bundled binary exists, drop_cadmus_binary succeeds, the
cache directory exists afterwards, the destination file holds the bundled
content, the stable destination path is recorded on the state, and a second
call after the bundled content changed overwrites the destination with the
new content (it always re-copies, never short-circuits). -/
theorem C6_drop_cadmus_binary (home resource_path content : String)
    (fs : FileSystem) (st : BackendState)
    (h : fs.read resource_path = some content) :
    ∃ fs1 st1,
      drop_cadmus_binary home resource_path fs st = some (fs1, st1) ∧
      fs1.read (cadmus_lib_dest home) = some content ∧
      fs1.pathExists (cadmus_cache_path home) = true ∧
      st1.cadmus_lib_path = cadmus_lib_dest home ∧
      st1.audio_sources = st.audio_sources ∧
      ∀ content2, ∃ fs2 st2,
        drop_cadmus_binary home resource_path
            (fs1.write resource_path content2) st1 = some (fs2, st2) ∧
        fs2.read (cadmus_lib_dest home) = some content2 := by
  unfold drop_cadmus_binary
  set dir := cadmus_cache_path home with hdir
  set dest := cadmus_lib_dest home with hdest
  set fsA := (if fs.pathExists dir then fs else fs.makedirs dir) with hfsA
  have hreadA : fsA.read resource_path = some content := by
    rw [hfsA]; split <;> exact h
  have hdirA : fsA.pathExists dir = true := by
    rw [hfsA]; split
    · assumption
    · exact fs.pathExists_makedirs_self dir
  refine ⟨fsA.write dest content, { st with cadmus_lib_path := dest },
    by simp [FileSystem.copyfile, hreadA], fsA.read_write_self dest content,
    fsA.pathExists_write dest content dir hdirA, rfl, rfl, ?_⟩
  intro content2
  set fsW := (fsA.write dest content).write resource_path content2 with hfsW
  have hreadW : fsW.read resource_path = some content2 :=
    (fsA.write dest content).read_write_self resource_path content2
  have hdirW : fsW.pathExists dir = true :=
    (fsA.write dest content).pathExists_write resource_path content2 dir
      (fsA.pathExists_write dest content dir hdirA)
  refine ⟨fsW.write dest content2,
    { st with cadmus_lib_path := dest }, ?_,
    fsW.read_write_self dest content2⟩
  rw [if_pos hdirW]
  simp [FileSystem.copyfile, hreadW]

set_option maxRecDepth 4000 in
/-- C6 witness: a concrete filesystem holding the bundled binary with
content BIN1; the copy lands at HOME/.cache/cadmus/librnnoise_ladspa.so. -/
theorem C6_drop_cadmus_binary_witness :
    (⟨[], [("/res/librnnoise_ladspa.so", "BIN1")]⟩ : FileSystem).read
        "/res/librnnoise_ladspa.so" = some "BIN1" ∧
    ∃ fs1 st1,
      drop_cadmus_binary "/home/u" "/res/librnnoise_ladspa.so"
          ⟨[], [("/res/librnnoise_ladspa.so", "BIN1")]⟩ ⟨[], ""⟩ = some (fs1, st1) ∧
      fs1.read (cadmus_lib_dest "/home/u") = some "BIN1" ∧
      fs1.pathExists (cadmus_cache_path "/home/u") = true ∧
      st1.cadmus_lib_path = cadmus_lib_dest "/home/u" ∧
      st1.audio_sources = (⟨[], ""⟩ : BackendState).audio_sources ∧
      ∀ content2, ∃ fs2 st2,
        drop_cadmus_binary "/home/u" "/res/librnnoise_ladspa.so"
            (fs1.write "/res/librnnoise_ladspa.so" content2) st1 = some (fs2, st2) ∧
        fs2.read (cadmus_lib_dest "/home/u") = some content2 :=
  ⟨by decide,
   C6_drop_cadmus_binary "/home/u" "/res/librnnoise_ladspa.so" "BIN1"
     ⟨[], [("/res/librnnoise_ladspa.so", "BIN1")]⟩ ⟨[], ""⟩ (by decide)⟩


/-- A parsed command-line invocation: the three argparse subcommands. -/
inductive CliCmd where
  | sources
  | enable (source : String)
  | disable
deriving DecidableEq, Repr

/-- The choices list argparse is given for the enable subcommand's source
argument (CadmusApplicationCli.__init__, main.py lines 183-184): the names
of the enumerated sources. -/
def cli_enable_choices (server : List AudioSource) (st : BackendState) :
    List String :=
  (sources_list server st).1.map AudioSource.name

/-- The argparse surface of CadmusApplicationCli: `sources` and `disable`
take no argument; `enable` takes one source argument that argparse rejects
unless it is among the configured choices. -/
def parse_args (choices : List String) (argv : List String) : Option CliCmd :=
  match argv with
  | ["sources"] => some CliCmd.sources
  | ["enable", s] => if s ∈ choices then some (CliCmd.enable s) else none
  | ["disable"] => some CliCmd.disable
  | _ => none

/-- CadmusApplicationCli.run (main.py lines 186-192): dispatch on the parsed
subcommand.  `sources` prints the cached name/description pairs, `enable`
calls enable_noise_suppression with the hard-coded control level 50, and
`disable` calls disable_noise_suppression. -/
def cli_run (server : List AudioSource) (st : BackendState) :
    CliCmd → List PulseEffect × Option String × BackendState
  | CliCmd.sources =>
      let q := sources_list server st
      (PulseEffect.printLine "Current sources:" ::
        q.1.flatMap (fun src =>
          [ PulseEffect.printLine "-----------------------------",
            PulseEffect.printLine ("name = " ++ src.name),
            PulseEffect.printLine ("description = " ++ src.description) ]),
       none, q.2)
  | CliCmd.enable s => enable_noise_suppression server st s 50
  | CliCmd.disable =>
      let d := disable_noise_suppression st
      (d.1, none, d.2)

/-- C8: the CLI accepts `enable s` exactly when s is among the enumerated
source names, and dispatches it to enable_noise_suppression with the fixed
default control level 50. -/
theorem C8_cli_enable (server : List AudioSource) (st : BackendState)
    (s : String) :
    (parse_args (cli_enable_choices server st) ["enable", s] =
        some (CliCmd.enable s) ↔ s ∈ cli_enable_choices server st) ∧
    cli_run server st (CliCmd.enable s) =
      enable_noise_suppression server st s 50 := by
  refine ⟨?_, rfl⟩
  by_cases hs : s ∈ cli_enable_choices server st <;> simp [parse_args, hs]

/-- A heap of list cells, for stating object-identity properties of the
Python lists that the pure model's value semantics cannot distinguish.
References are indices of cells. -/
structure Heap where
  cells : List (List AudioSource)
deriving DecidableEq, Repr

/-- Dereference. -/
def Heap.get (h : Heap) (r : Nat) : List AudioSource :=
  h.cells.getD r []

/-- In-place mutation of the referenced cell, as a Python caller mutating a
list object would. -/
def Heap.set (h : Heap) (r : Nat) (v : List AudioSource) : Heap :=
  ⟨h.cells.set r v⟩

/-- Allocate a fresh cell (list object) holding `v`. -/
def Heap.alloc (h : Heap) (v : List AudioSource) : Nat × Heap :=
  (h.cells.length, ⟨h.cells ++ [v]⟩)

/-- The CadmusBackendApp fields, with the audio_sources list held by
reference as in Python. -/
structure BackendStateH where
  audio_sources : Nat
  cadmus_lib_path : String
deriving DecidableEq, Repr

/-- CadmusBackendApp.sources_list again, but heap-aware: both return paths
end in list.copy(), i.e. allocation of a fresh cell holding the cache's
current value; the else path first extends the cached list in place. -/
def sources_list_heap (server : List AudioSource) (st : BackendStateH)
    (h : Heap) : Nat × BackendStateH × Heap :=
  let cur := h.get st.audio_sources
  if cur.length > 0 then
    let a := h.alloc cur
    (a.1, st, a.2)
  else
    let updated := cur ++ server
    let h1 := h.set st.audio_sources updated
    let a := h1.alloc updated
    (a.1, st, a.2)

/-- Mutating one cell leaves every other cell unchanged. -/
theorem Heap.get_set_ne (h : Heap) (i j : Nat) (v : List AudioSource)
    (hij : i ≠ j) : (h.set i v).get j = h.get j := by
  simp only [Heap.get, Heap.set, List.getD, List.get?_eq_getElem?]
  rw [List.getElem?_set_ne hij]

/-- C10: sources_list hands back a reference distinct from the cached
list's cell (it returns a copy), so any caller-side in-place mutation of
the returned list leaves the cached snapshot untouched. -/
theorem C10_sources_list_returns_copy (server : List AudioSource)
    (st : BackendStateH) (h : Heap)
    (hv : st.audio_sources < h.cells.length) :
    (sources_list_heap server st h).1 ≠
      (sources_list_heap server st h).2.1.audio_sources ∧
    ∀ v, ((sources_list_heap server st h).2.2.set
            (sources_list_heap server st h).1 v).get
          (sources_list_heap server st h).2.1.audio_sources =
        (sources_list_heap server st h).2.2.get
          (sources_list_heap server st h).2.1.audio_sources := by
  have hr : (sources_list_heap server st h).1 = h.cells.length ∧
      (sources_list_heap server st h).2.1 = st := by
    by_cases hc : (h.get st.audio_sources).length > 0
    · simp [sources_list_heap, hc, Heap.alloc]
    · simp [sources_list_heap, hc, Heap.alloc, Heap.set]
  have hne : (sources_list_heap server st h).1 ≠
      (sources_list_heap server st h).2.1.audio_sources := by
    rw [hr.1, hr.2]
    exact fun hc => absurd hv (by rw [← hc]; exact lt_irrefl _)
  exact ⟨hne, fun v => Heap.get_set_ne _ _ _ v hne⟩

/-- C10 witness: a one-cell heap whose cell caches one device; the returned
reference is fresh and clobbering it does not change the cache cell. -/
theorem C10_sources_list_returns_copy_witness :
    (⟨1, "/p"⟩ : BackendStateH).audio_sources <
      (⟨[[⟨"mic0", "Built-in Mic"⟩], []]⟩ : Heap).cells.length ∧
    ((sources_list_heap [] ⟨1, "/p"⟩ ⟨[[⟨"mic0", "Built-in Mic"⟩], []]⟩).1 ≠
      (sources_list_heap [] ⟨1, "/p"⟩
        ⟨[[⟨"mic0", "Built-in Mic"⟩], []]⟩).2.1.audio_sources ∧
    ∀ v, ((sources_list_heap [] ⟨1, "/p"⟩
            ⟨[[⟨"mic0", "Built-in Mic"⟩], []]⟩).2.2.set
            (sources_list_heap [] ⟨1, "/p"⟩
              ⟨[[⟨"mic0", "Built-in Mic"⟩], []]⟩).1 v).get
          (sources_list_heap [] ⟨1, "/p"⟩
            ⟨[[⟨"mic0", "Built-in Mic"⟩], []]⟩).2.1.audio_sources =
        (sources_list_heap [] ⟨1, "/p"⟩
            ⟨[[⟨"mic0", "Built-in Mic"⟩], []]⟩).2.2.get
          (sources_list_heap [] ⟨1, "/p"⟩
            ⟨[[⟨"mic0", "Built-in Mic"⟩], []]⟩).2.1.audio_sources) :=
  ⟨by decide,
   C10_sources_list_returns_copy [] ⟨1, "/p"⟩
     ⟨[[⟨"mic0", "Built-in Mic"⟩], []]⟩ (by decide)⟩

end Cadmus
